import Mathlib

/-!
Verification of the CrossMeter payment-intent API core against its
natural-language specification.

The development shallowly embeds the Python sources:
* `app/services/contract_interface.py` — chain registry, ABI encoding helpers
  (`ChainConfig`, `RouterContractABI`), bridge-fee computation;
* `app/services/router_service.py` — calldata generation and chain validation;
* `app/services/payment_intent_service.py` — the payment-intent state machine
  over a store of intent rows;
* `app/services/webhook_service.py` — webhook enqueue, delivery attempts,
  retry scheduling, expiry, and the pending-event poll sweep.

Python strings are modelled as `List Char`, byte strings as `List Nat`
(each element `< 256`), integers as `Nat` (all quantities in the code are
non-negative), the database as explicit record stores passed through each
operation, and HTTP delivery as an oracle parameter.  Exceptions are
modelled with `Except` / `Option` following the `raise` / `return None`
sites of the source.
-/

namespace CrossMeter

/-! ## Chain registry (`app/services/contract_interface.py`, `ChainConfig`) -/

/-- One entry of `ChainConfig.CHAIN_CONFIGS`.  Optional fields mirror the
Python dict accesses `config.get(key, default)`. -/
structure ChainCfg where
  name : List Char
  routerAddress : List Char
  usdcAddress : List Char
  gasLimit : Option Nat
  bridgeFeeBps : Option Nat
  bridgeAddress : Option (List Char)
  deriving Repr, DecidableEq

/-- `ChainConfig.CHAIN_CONFIGS`: the six supported chains.
Constructor fields: name, router_address, usdc_address, gas_limit,
bridge_fee_bps, bridge_address (no entry carries a `bridge_address` key). -/
def CHAIN_CONFIGS : List (Nat × ChainCfg) :=
  [ (1, ChainCfg.mk "Ethereum".data
      "0x1234567890123456789012345678901234567890".data
      "0xA0b86a33E6C617Ad208c59E7c7f8C48e9b1b3B2c".data
      (some 300000) (some 5) none),
    (8453, ChainCfg.mk "Base".data
      "0x2345678901234567890123456789012345678901".data
      "0x833589fCD6eDb6E08f4c7C32D4f71b54bdA02913".data
      (some 250000) (some 3) none),
    (84532, ChainCfg.mk "Base Sepolia".data
      "0x3456789012345678901234567890123456789012".data
      "0x036CbD53842c5426634e7929541eC2318f3dCF7e".data
      (some 250000) (some 5) none),
    (10, ChainCfg.mk "Optimism".data
      "0x4567890123456789012345678901234567890123".data
      "0x0b2C639c533813f4Aa9D7837CAf62653d097Ff85".data
      (some 200000) (some 4) none),
    (42161, ChainCfg.mk "Arbitrum".data
      "0x5678901234567890123456789012345678901234".data
      "0xaf88d065e77c8cC2239327C5EDb3A432268e5831".data
      (some 180000) (some 3) none),
    (137, ChainCfg.mk "Polygon".data
      "0x6789012345678901234567890123456789012345".data
      "0x2791Bca1f2de4661ED88A30C99A7a9449Aa84174".data
      (some 150000) (some 6) none) ]

/-- `ChainConfig.get_chain_config`: dictionary lookup by chain id. -/
def get_chain_config (chain_id : Nat) : Option ChainCfg :=
  (CHAIN_CONFIGS.find? (fun p => p.1 == chain_id)).map Prod.snd

/-- `ChainConfig.get_router_address`. -/
def get_router_address (chain_id : Nat) : Option (List Char) :=
  (get_chain_config chain_id).map (·.routerAddress)

/-- `ChainConfig.get_supported_chains`: the key list of `CHAIN_CONFIGS`. -/
def get_supported_chains : List Nat :=
  CHAIN_CONFIGS.map Prod.fst

/-- `ChainConfig.calculate_bridge_fee`: `(amount * fee_bps) // 10000`,
`0` when the chain id is absent; `fee_bps` read with default 5. -/
def calculate_bridge_fee (amount : Nat) (src_chain_id : Nat) : Nat :=
  match get_chain_config src_chain_id with
  | none => 0
  | some config => amount * (config.bridgeFeeBps.getD 5) / 10000

/-- `RouterService.validate_chain_support`: both ids must be supported;
same-chain pairs are allowed. -/
def validate_chain_support (src_chain_id dest_chain_id : Nat) : Bool :=
  src_chain_id ∈ get_supported_chains && dest_chain_id ∈ get_supported_chains

/-- The registry entry for Base Sepolia (chain id 84532), spelled out for use
as a concrete witness value. -/
def baseSepoliaCfg : ChainCfg :=
  ChainCfg.mk "Base Sepolia".data
    "0x3456789012345678901234567890123456789012".data
    "0x036CbD53842c5426634e7929541eC2318f3dCF7e".data
    (some 250000) (some 5) none

/-! ## String helpers (models of the Python `str` operations used by the
encoders: `startswith('0x')` / slicing, `lower`, `zfill`, hex formatting) -/

/-- ASCII lowercasing of one character, as `str.lower` acts on the ASCII
range (the only characters reaching `lower()` in the encoders). -/
def lowerChar (c : Char) : Char :=
  if 'A' ≤ c ∧ c ≤ 'Z' then Char.ofNat (c.toNat + 32) else c

/-- `s.lower()`. -/
def lowerStr (s : List Char) : List Char := s.map lowerChar

/-- `s[2:] if s.startswith('0x') else s`. -/
def strip0x : List Char → List Char
  | '0' :: 'x' :: rest => rest
  | s => s

/-- `s.zfill(64)` for sign-free strings: left-pad with `'0'` to width 64. -/
def zfill64 (s : List Char) : List Char :=
  List.replicate (64 - s.length) '0' ++ s

/-- The sixteen lowercase hexadecimal digit characters. -/
def hexLowerChars : List Char := "0123456789abcdef".data

/-- Hexadecimal digit characters of either case. -/
def hexAnyChars : List Char := "0123456789abcdefABCDEF".data

/-- The lowercase hex character of a digit value (values ≥ 16 do not occur). -/
def hexDigitChar (n : Nat) : Char := hexLowerChars.getD n '0'

/-- Little-endian hex digit characters of `n`, with an explicit structural
fuel argument (the kernel can then evaluate it). -/
def hexDigitsAux : Nat → Nat → List Char
  | 0, _ => []
  | _ + 1, 0 => []
  | fuel + 1, n => hexDigitChar (n % 16) :: hexDigitsAux fuel (n / 16)

/-- Little-endian list of hex digit characters of `n` (empty for 0).
`n` itself is always enough fuel. -/
def hexDigitsLE (n : Nat) : List Char := hexDigitsAux n n

/-- `f"{n:x}"`: minimal-width lowercase hex representation. -/
def hexRepr (n : Nat) : List Char :=
  if n = 0 then ['0'] else (hexDigitsLE n).reverse

/-! ## SHA-256 (model of `hashlib.sha256(...).hexdigest()`, FIPS 180-4),
operating on byte lists with 32-bit words represented as `Nat` values
reduced modulo `2 ^ 32`. -/

def M32 : Nat := 4294967296

def add32 (a b : Nat) : Nat := (a + b) % M32

def rotr32 (k a : Nat) : Nat := Nat.lor (a >>> k) ((a <<< (32 - k)) % M32)

def bsig0 (x : Nat) : Nat := Nat.xor (rotr32 2 x) (Nat.xor (rotr32 13 x) (rotr32 22 x))

def bsig1 (x : Nat) : Nat := Nat.xor (rotr32 6 x) (Nat.xor (rotr32 11 x) (rotr32 25 x))

def ssig0 (x : Nat) : Nat := Nat.xor (rotr32 7 x) (Nat.xor (rotr32 18 x) (x >>> 3))

def ssig1 (x : Nat) : Nat := Nat.xor (rotr32 17 x) (Nat.xor (rotr32 19 x) (x >>> 10))

def chFn (e f g : Nat) : Nat := Nat.xor (Nat.land e f) (Nat.land (4294967295 - e) g)

def majFn (a b c : Nat) : Nat :=
  Nat.xor (Nat.land a b) (Nat.xor (Nat.land a c) (Nat.land b c))

/-- SHA-256 round constants. -/
def sha256K : List Nat :=
  [ 1116352408, 1899447441, 3049323471, 3921009573, 961987163, 1508970993,
    2453635748, 2870763221, 3624381080, 310598401, 607225278, 1426881987,
    1925078388, 2162078206, 2614888103, 3248222580, 3835390401, 4022224774,
    264347078, 604807628, 770255983, 1249150122, 1555081692, 1996064986,
    2554220882, 2821834349, 2952996808, 3210313671, 3336571891, 3584528711,
    113926993, 338241895, 666307205, 773529912, 1294757372, 1396182291,
    1695183700, 1986661051, 2177026350, 2456956037, 2730485921, 2820302411,
    3259730800, 3345764771, 3516065817, 3600352804, 4094571909, 275423344,
    430227734, 506948616, 659060556, 883997877, 958139571, 1322822218,
    1537002063, 1747873779, 1955562222, 2024104815, 2227730452, 2361852424,
    2428436474, 2756734187, 3204031479, 3329325298 ]

/-- SHA-256 initial hash value. -/
def sha256H0 : List Nat :=
  [ 1779033703, 3144134277, 1013904242, 2773480762,
    1359893119, 2600822924, 528734635, 1541459225 ]

/-- Big-endian 8-byte encoding of the message bit length. -/
def be64 (n : Nat) : List Nat :=
  [ n >>> 56 % 256, n >>> 48 % 256, n >>> 40 % 256, n >>> 32 % 256,
    n >>> 24 % 256, n >>> 16 % 256, n >>> 8 % 256, n % 256 ]

/-- SHA-256 padding: append `0x80`, zero bytes, and the 64-bit bit length,
reaching a multiple of 64 bytes. -/
def shaPad (msg : List Nat) : List Nat :=
  msg ++ (128 :: List.replicate ((119 - msg.length % 64) % 64) 0) ++
    be64 (8 * msg.length)

/-- Split a byte list into 64-byte chunks (structural fuel recursion; each
step consumes at least one element, so `l.length` is enough fuel). -/
def chunks64Aux : Nat → List Nat → List (List Nat)
  | 0, _ => []
  | fuel + 1, l => if l = [] then [] else l.take 64 :: chunks64Aux fuel (l.drop 64)

/-- Split a byte list into 64-byte chunks. -/
def chunks64 (l : List Nat) : List (List Nat) := chunks64Aux l.length l

/-- Combine four bytes into one big-endian 32-bit word. -/
def beWord (a b c d : Nat) : Nat := ((a * 256 + b) * 256 + c) * 256 + d

/-- Parse a 64-byte block into sixteen big-endian words. -/
def toWords : List Nat → List Nat
  | a :: b :: c :: d :: rest => beWord a b c d :: toWords rest
  | _ => []

/-- Extend the sixteen block words to the 64-entry message schedule. -/
def extendSchedule (ws : Array Nat) : Array Nat :=
  (List.range 48).foldl
    (fun a _ =>
      let i := a.size
      a.push (add32 (add32 (ssig1 (a.getD (i - 2) 0)) (a.getD (i - 7) 0))
                    (add32 (ssig0 (a.getD (i - 15) 0)) (a.getD (i - 16) 0))))
    ws

/-- One SHA-256 compression round. -/
def shaRound (st : Nat × Nat × Nat × Nat × Nat × Nat × Nat × Nat) (ki wi : Nat) :
    Nat × Nat × Nat × Nat × Nat × Nat × Nat × Nat :=
  let (a, b, c, d, e, f, g, h) := st
  let t1 := add32 h (add32 (bsig1 e) (add32 (chFn e f g) (add32 ki wi)))
  let t2 := add32 (bsig0 a) (majFn a b c)
  (add32 t1 t2, a, b, c, add32 d t1, e, f, g)

/-- Compress one 64-byte block into the running hash state. -/
def shaCompress (hs : List Nat) (block : List Nat) : List Nat :=
  let w := extendSchedule (toWords block).toArray
  let st0 := (hs.getD 0 0, hs.getD 1 0, hs.getD 2 0, hs.getD 3 0,
              hs.getD 4 0, hs.getD 5 0, hs.getD 6 0, hs.getD 7 0)
  let stF := (List.range 64).foldl
    (fun st i => shaRound st (sha256K.getD i 0) (w.getD i 0)) st0
  match stF with
  | (a, b, c, d, e, f, g, h) =>
    [ add32 (hs.getD 0 0) a, add32 (hs.getD 1 0) b, add32 (hs.getD 2 0) c,
      add32 (hs.getD 3 0) d, add32 (hs.getD 4 0) e, add32 (hs.getD 5 0) f,
      add32 (hs.getD 6 0) g, add32 (hs.getD 7 0) h ]

/-- SHA-256 of a byte list, as the list of eight 32-bit state words. -/
def sha256Words (msg : List Nat) : List Nat :=
  (chunks64 (shaPad msg)).foldl shaCompress sha256H0

/-- Big-endian bytes of one 32-bit word. -/
def wordBytes (w : Nat) : List Nat :=
  [w / 16777216 % 256, w / 65536 % 256, w / 256 % 256, w % 256]

/-- SHA-256 digest as a list of 32 bytes. -/
def sha256Bytes (msg : List Nat) : List Nat :=
  ((sha256Words msg).map wordBytes).flatten

/-- Two lowercase hex characters of one byte. -/
def byteHex (b : Nat) : List Char := [hexDigitChar (b / 16), hexDigitChar (b % 16)]

/-- `hashlib.sha256(msg).hexdigest()`. -/
def sha256Hex (msg : List Nat) : List Char :=
  ((sha256Bytes msg).map byteHex).flatten

/-- UTF-8 encoding of one character (as Python `str.encode('utf-8')`). -/
def utf8Char (c : Char) : List Nat :=
  let n := c.toNat
  if n < 128 then [n]
  else if n < 2048 then [192 + n / 64, 128 + n % 64]
  else if n < 65536 then [224 + n / 4096, 128 + n / 64 % 64, 128 + n % 64]
  else [240 + n / 262144, 128 + n / 4096 % 64, 128 + n / 64 % 64, 128 + n % 64]

/-- `s.encode('utf-8')` over the character list model of a string. -/
def utf8Encode (s : List Char) : List Nat := (s.map utf8Char).flatten

/-! ## ABI encoding (`RouterContractABI`) and the router service
(`app/services/router_service.py`) -/

/-- `RouterContractABI.encode_address`: ensure a `0x` prefix, drop it,
lowercase, left-pad with zeros to 64 characters. -/
def encode_address (address : List Char) : List Char :=
  zfill64 (lowerStr (strip0x address))

/-- `RouterContractABI.encode_uint256`: `f"{value:064x}"`. -/
def encode_uint256 (value : Nat) : List Char := zfill64 (hexRepr value)

/-- `RouterContractABI.encode_uint32`: identical layout to `encode_uint256`
in the source (`f"{value:064x}"`). -/
def encode_uint32 (value : Nat) : List Char := zfill64 (hexRepr value)

/-- `RouterContractABI.encode_bytes32`: strip a `0x` prefix; a 64-character
value is returned lowercased; any other value is replaced by the SHA-256
hex digest of its UTF-8 encoding. -/
def encode_bytes32 (value : List Char) : List Char :=
  if (strip0x value).length = 64 then lowerStr (strip0x value)
  else sha256Hex (utf8Encode (strip0x value))

/-- One entry of `RouterContractABI.FUNCTIONS` (a `ContractFunction`
dataclass): name, selector, parameter (name, type) pairs, description. -/
structure ContractFunction where
  name : List Char
  selector : List Char
  parameters : List (List Char × List Char)
  description : List Char
  deriving Repr, DecidableEq

/-- The `createPayment` entry of `RouterContractABI.FUNCTIONS`. -/
def createPaymentDef : ContractFunction :=
  ContractFunction.mk "createPayment".data "0xa9059cbb".data
    [ ("recipient".data, "address".data), ("amount".data, "uint256".data),
      ("srcChainId".data, "uint32".data), ("destChainId".data, "uint32".data),
      ("paymentId".data, "bytes32".data) ]
    "Create a cross-chain payment".data

/-- The `bridgePayment` entry of `RouterContractABI.FUNCTIONS`. -/
def bridgePaymentDef : ContractFunction :=
  ContractFunction.mk "bridgePayment".data "0x23b872dd".data
    [ ("recipient".data, "address".data), ("amount".data, "uint256".data),
      ("srcChainId".data, "uint32".data), ("destChainId".data, "uint32".data),
      ("bridgeAddress".data, "address".data), ("paymentId".data, "bytes32".data) ]
    "Create a bridged cross-chain payment with custom bridge".data

/-- The `batchPayment` entry of `RouterContractABI.FUNCTIONS`. -/
def batchPaymentDef : ContractFunction :=
  ContractFunction.mk "batchPayment".data "0x18160ddd".data
    [ ("recipients".data, "address[]".data), ("amounts".data, "uint256[]".data),
      ("srcChainId".data, "uint32".data), ("destChainId".data, "uint32".data),
      ("paymentId".data, "bytes32".data) ]
    "Create multiple payments in a single transaction".data

/-- `RouterContractABI.FUNCTIONS`. -/
def FUNCTIONS : List (List Char × ContractFunction) :=
  [ ("createPayment".data, createPaymentDef),
    ("bridgePayment".data, bridgePaymentDef),
    ("batchPayment".data, batchPaymentDef) ]

/-- `RouterContractABI.FUNCTIONS.get(name)`. -/
def functions_get (fname : List Char) : Option ContractFunction :=
  (FUNCTIONS.find? (fun p => p.1 == fname)).map Prod.snd

/-- `PaymentType` enum. -/
inductive PaymentType
  | simple
  | bridge
  | batch
  | subscription
  deriving Repr, DecidableEq

/-- `select_optimal_function`: batch for multiple recipients, bridge for
cross-chain, simple payment otherwise.  (`payment_type` is accepted but does
not influence the choice, exactly as in the source.) -/
def select_optimal_function (src_chain_id dest_chain_id : Nat)
    (_payment_type : PaymentType) (recipients_count : Nat) : List Char :=
  if recipients_count > 1 then "batchPayment".data
  else if src_chain_id ≠ dest_chain_id then "bridgePayment".data
  else "createPayment".data

/-- `RouterService._encode_create_payment`: hardcoded selector `0xa9059cbb`
followed by the five encoded parameters. -/
def encode_create_payment (recipient : List Char) (amount src_chain_id dest_chain_id : Nat)
    (payment_id : List Char) : List Char :=
  "0xa9059cbb".data ++ encode_address recipient ++ encode_uint256 amount ++
    encode_uint32 src_chain_id ++ encode_uint32 dest_chain_id ++
    encode_bytes32 payment_id

/-- `RouterService._encode_bridge_payment`: hardcoded selector `0x23b872dd`
followed by the six encoded parameters. -/
def encode_bridge_payment (recipient : List Char) (amount src_chain_id dest_chain_id : Nat)
    (bridge_address payment_id : List Char) : List Char :=
  "0x23b872dd".data ++ encode_address recipient ++ encode_uint256 amount ++
    encode_uint32 src_chain_id ++ encode_uint32 dest_chain_id ++
    encode_address bridge_address ++ encode_bytes32 payment_id

/-- Decimal digit characters of a natural number (Python string interpolation
of an `int`). -/
def natDecimal (n : Nat) : List Char := (Nat.repr n).data

/-- `RouterService._generate_mock_calldata`: deterministic pseudo-hex from the
parameter string, padded and truncated to 138 characters. -/
def generate_mock_calldata (vendor_wallet : List Char) (amount src_chain_id dest_chain_id : Nat)
    (intent_id : List Char) : List Char :=
  let param_string := vendor_wallet ++ natDecimal amount ++ natDecimal src_chain_id ++
    natDecimal dest_chain_id ++ intent_id
  let r := "0x".data ++ param_string.enum.map (fun p => hexDigitChar ((p.2.toNat + p.1) % 16))
  (r ++ List.replicate (138 - r.length) '0').take 138

/-- Python `a or b` for an optional / possibly-empty string `a`. -/
def pyOr (a : Option (List Char)) (b : List Char) : List Char :=
  match a with
  | some s => if s = [] then b else s
  | none => b

/-- `settings.default_router_address`. -/
def default_router_address : List Char :=
  "0x1234567890123456789012345678901234567890".data

/-- `estimated_cost` sub-dict of the router info. -/
structure EstimatedCost where
  gas_limit : Nat
  bridge_fee_usdc : Nat
  total_amount_usdc : Nat
  deriving Repr, DecidableEq

/-- The dict returned by `RouterService.generate_payment_calldata`. -/
structure RouterInfo where
  address : List Char
  chain_id : Nat
  function : List Char
  calldata : List Char
  gas_limit : Nat
  bridge_fee : Nat
  estimated_cost : EstimatedCost
  deriving Repr, DecidableEq

/-- Error kinds, one per `raise` site of the embedded services. -/
inductive AppError
  | unsupportedSourceChain
  | unknownFunction
  | unsupportedChainCombination
  | vendorNotFound
  | sourceChainNotEnabled
  | createIntentFailed
  | createCustomerFailed
  | createWebhookEventFailed
  | dbUnavailable
  deriving Repr, DecidableEq

/-- `RouterService.generate_payment_calldata`.  The service layer always calls
it with `payment_type=SIMPLE` (the default) and no `bridge_address`; both are
kept as explicit arguments here. -/
def generate_payment_calldata (vendor_wallet : List Char) (amount_usdc_minor : Nat)
    (src_chain_id dest_chain_id : Nat) (payment_intent_id : List Char)
    (payment_type : PaymentType) (bridge_address : Option (List Char)) :
    Except AppError RouterInfo :=
  match get_chain_config src_chain_id with
  | none => .error .unsupportedSourceChain
  | some src_config =>
    let function_name := select_optimal_function src_chain_id dest_chain_id payment_type 1
    match functions_get function_name with
    | none => .error .unknownFunction
    | some _function_def =>
      let bridge_fee :=
        if src_chain_id ≠ dest_chain_id then
          calculate_bridge_fee amount_usdc_minor src_chain_id
        else 0
      let calldata :=
        if function_name = "createPayment".data then
          encode_create_payment vendor_wallet amount_usdc_minor src_chain_id
            dest_chain_id payment_intent_id
        else if function_name = "bridgePayment".data then
          encode_bridge_payment vendor_wallet amount_usdc_minor src_chain_id
            dest_chain_id
            (pyOr bridge_address (pyOr src_config.bridgeAddress "0x0".data))
            payment_intent_id
        else
          generate_mock_calldata vendor_wallet amount_usdc_minor src_chain_id
            dest_chain_id payment_intent_id
      let gas := src_config.gasLimit.getD 300000
      .ok (RouterInfo.mk
        (pyOr (get_router_address src_chain_id) default_router_address)
        src_chain_id function_name calldata gas bridge_fee
        (EstimatedCost.mk gas bridge_fee (amount_usdc_minor + bridge_fee)))

/-- A well-formed wallet address used as a concrete C7 witness input. -/
def w7 : List Char := "0x1111111111111111111111111111111111111111".data

/-- A service-style payment intent id used as a concrete C7 witness input. -/
def pid7 : List Char := "pi_0123abc".data

/-- A 64-character hex identifier containing uppercase characters. -/
def pidUpperC8 : List Char :=
  "00000000000000000000000000000000000000000000000000000000000000AB".data

/-! ## Data model: database rows and the store
(`app/database/schema.py` tables as used by the embedded services).
Timestamps are modelled as `Nat` seconds; the serialized webhook payload
snapshot is kept as an opaque `List Char` (its contents are captured at
enqueue time and never recomputed, which is all the claims use). -/

/-- `PaymentIntentStatus` (`app/schemas/payment_intent.py`): the enum has
exactly the four members of the source — there is no FAILED member. -/
inductive PaymentIntentStatus
  | created
  | awaiting_user_tx
  | submitted
  | settled
  deriving Repr, DecidableEq

/-- The `.value` string of each `PaymentIntentStatus` member. -/
def PaymentIntentStatus.value : PaymentIntentStatus → List Char
  | .created => "created".data
  | .awaiting_user_tx => "awaiting_user_tx".data
  | .submitted => "submitted".data
  | .settled => "settled".data

/-- `WebhookStatus` (`app/services/webhook_service.py`). -/
inductive WebhookStatus
  | pending
  | sent
  | failed
  | expired
  deriving Repr, DecidableEq, BEq

/-- A `payment_intents` row. -/
structure IntentRow where
  intent_id : List Char
  vendor_id : List Char
  product_id : List Char
  customer_id : Option (List Char)
  customer_email : Option (List Char)
  src_chain_id : Nat
  dest_chain_id : Nat
  amount_usdc_minor : Nat
  status : PaymentIntentStatus
  router_address : List Char
  router_function : List Char
  calldata_hex : List Char
  src_tx_hash : Option (List Char)
  dest_tx_hash : Option (List Char)
  deriving Repr, DecidableEq

/-- A `vendors` row (the fields the embedded services read). -/
structure VendorRow where
  vendor_id : List Char
  wallet_address : List Char
  preferred_dest_chain_id : Nat
  enabled_source_chains : List Nat
  webhook_url : Option (List Char)
  deriving Repr, DecidableEq

/-- A `customers` row (the fields the embedded services read). -/
structure CustomerRow where
  customer_id : List Char
  email : List Char
  deriving Repr, DecidableEq

/-- A `webhook_events` row. -/
structure WebhookEventRow where
  id : Nat
  vendor_id : List Char
  event_type : List Char
  payload : List Char
  webhook_url : List Char
  status : WebhookStatus
  attempts : Nat
  max_attempts : Nat
  next_retry_at : Nat
  response_status : Option Nat
  response_body : Option (List Char)
  deriving Repr, DecidableEq

/-- The database state threaded through every operation. -/
structure Store where
  vendors : List VendorRow
  customers : List CustomerRow
  payment_intents : List IntentRow
  webhook_events : List WebhookEventRow
  deriving Repr, DecidableEq

/-! ## Webhook delivery engine (`app/services/webhook_service.py`) -/

/-- `settings.webhook_retry_attempts` (default 3). -/
def webhook_retry_attempts : Nat := 3

/-- `settings.webhook_retry_delay_seconds` (default 2). -/
def webhook_retry_delay_seconds : Nat := 2

/-- Result of one outbound HTTP POST, supplied as an oracle: an HTTP response
with a status code and body, or a transport-level exception. -/
inductive DeliveryOutcome
  | response (status_code : Nat) (body : List Char)
  | transportError (msg : List Char)
  deriving Repr, DecidableEq

/-- Environment of one `send_webhook` call: wall-clock time, the id the
insert will allocate, the HTTP outcome, and whether the two database
operations that can raise do raise. -/
structure WebhookEnv where
  now : Nat
  new_event_id : Nat
  outcome : DeliveryOutcome
  vendor_lookup_raises : Bool
  insert_returns_row : Bool
  deriving Repr, DecidableEq

/-- `select("*").eq("id", eid)`, first row. -/
def findWebhookEvent (rows : List WebhookEventRow) (eid : Nat) : Option WebhookEventRow :=
  rows.find? (fun r => r.id == eid)

/-- `table("webhook_events").update(...).eq("id", eid)`. -/
def updateWebhookEvent (st : Store) (eid : Nat) (f : WebhookEventRow → WebhookEventRow) :
    Store :=
  { st with webhook_events := st.webhook_events.map (fun r => if r.id == eid then f r else r) }

/-- `WebhookService._attempt_webhook_delivery`: re-reads the row, marks it
EXPIRED when attempts are exhausted, otherwise POSTs and records the result
(SENT on 2xx, FAILED otherwise, attempts incremented, body truncated to
1000 characters). -/
def attempt_webhook_delivery (st : Store) (eid : Nat) (o : DeliveryOutcome) (_now : Nat) :
    Store × Bool :=
  match findWebhookEvent st.webhook_events eid with
  | none => (st, false)
  | some row =>
    if row.max_attempts ≤ row.attempts then
      (updateWebhookEvent st eid (fun r => { r with status := .expired }), false)
    else
      match o with
      | .response code body =>
        (updateWebhookEvent st eid (fun r =>
          { r with attempts := row.attempts + 1,
                   response_status := some code,
                   response_body := some (body.take 1000),
                   status := if 200 ≤ code ∧ code < 300 then .sent else .failed }),
         decide (200 ≤ code) && decide (code < 300))
      | .transportError msg =>
        (updateWebhookEvent st eid (fun r =>
          { r with attempts := row.attempts + 1,
                   response_status := some 0,
                   response_body := some (("Delivery failed: ".data ++ msg).take 1000),
                   status := .failed }), false)

/-- `WebhookService._schedule_retry`: re-reads the attempt count and sets
`next_retry_at = now + min(base_delay * 2 ** (attempts - 1), 3600)`.
(`attempts` is at least 1 at every call site, so the `Nat` subtraction
agrees with the Python exponent.) -/
def schedule_retry (st : Store) (eid : Nat) (now : Nat) : Store :=
  match findWebhookEvent st.webhook_events eid with
  | none => st
  | some row =>
    let delay := min (webhook_retry_delay_seconds * 2 ^ (row.attempts - 1)) 3600
    updateWebhookEvent st eid (fun r => { r with next_retry_at := now + delay })

/-- The attempt-then-maybe-schedule step shared by `send_webhook` and
`process_pending_webhooks`: one delivery attempt, followed by
`_schedule_retry` when it did not succeed. -/
def deliveryInvocation (st : Store) (eid : Nat) (o : DeliveryOutcome) (now : Nat) : Store :=
  let r := attempt_webhook_delivery st eid o now
  if r.2 then r.1 else schedule_retry r.1 eid now

/-- `WebhookService.send_webhook`: silently succeed when the vendor is absent
or has no webhook URL; otherwise insert a PENDING event (attempts 0,
`next_retry_at = now`), attempt immediate delivery, schedule a retry on
failure, and return `True`.  It raises only when the vendor lookup itself
raises or the insert returns no row. -/
def send_webhook (st : Store) (vendor_id event_type payload : List Char)
    (env : WebhookEnv) : (Except AppError Bool) × Store :=
  if env.vendor_lookup_raises then (.error .dbUnavailable, st)
  else
    match st.vendors.find? (fun v => v.vendor_id == vendor_id) with
    | none => (.ok true, st)
    | some vendor =>
      match vendor.webhook_url with
      | none => (.ok true, st)
      | some url =>
        if url = [] then (.ok true, st)
        else if env.insert_returns_row = false then (.error .createWebhookEventFailed, st)
        else
          let row : WebhookEventRow :=
            { id := env.new_event_id, vendor_id := vendor_id, event_type := event_type,
              payload := payload, webhook_url := url, status := .pending,
              attempts := 0, max_attempts := webhook_retry_attempts,
              next_retry_at := env.now, response_status := none, response_body := none }
          let st1 := { st with webhook_events := st.webhook_events ++ [row] }
          (.ok true, deliveryInvocation st1 env.new_event_id env.outcome env.now)

/-- The sweep's selection predicate: `status == PENDING and next_retry_at <= now`. -/
def sweepSelects (now : Nat) (r : WebhookEventRow) : Bool :=
  r.status == .pending && r.next_retry_at ≤ now

/-- `WebhookService.process_pending_webhooks`: select the PENDING events due
for retry, run the shared attempt/backoff/expire step on each, and count
every processed event. -/
def process_pending_webhooks (st : Store) (now : Nat) (oracle : Nat → DeliveryOutcome) :
    Nat × Store :=
  let selected := st.webhook_events.filter (sweepSelects now)
  selected.foldl
    (fun acc row => (acc.1 + 1, deliveryInvocation acc.2 row.id (oracle row.id) now))
    (0, st)

/-! ## Payment intent state machine (`app/services/payment_intent_service.py`) -/

/-- `PaymentIntentCreate` (`app/schemas/payment_intent.py`). -/
structure PaymentIntentCreate where
  vendor_id : List Char
  product_id : List Char
  src_chain_id : Nat
  dest_chain_id : Nat
  amount_usdc_minor : Nat
  customer_email : Option (List Char)
  deriving Repr, DecidableEq

/-- Environment of one `create_payment_intent` call: the generated
`pi_…` / `cust_…` ids, the clock, the webhook environment of the inline
`payment_intent.created` push, and whether the two inserts return rows. -/
structure CreateEnv where
  intent_id : List Char
  customer_id : List Char
  now : Nat
  wenv : WebhookEnv
  insert_intent_returns_row : Bool
  insert_customer_returns_row : Bool
  deriving Repr, DecidableEq

/-- `select("*").eq("intent_id", iid)`, first row
(`PaymentIntentService.get_payment_intent`). -/
def findIntent (st : Store) (iid : List Char) : Option IntentRow :=
  st.payment_intents.find? (fun r => r.intent_id == iid)

/-- The stored status of an intent, as read back from the store. -/
def statusOf (st : Store) (iid : List Char) : Option PaymentIntentStatus :=
  (findIntent st iid).map (·.status)

/-- `PaymentIntentService._get_or_create_customer`. -/
def get_or_create_customer (st : Store) (email : List Char) (env : CreateEnv) :
    (Except AppError (List Char)) × Store :=
  match st.customers.find? (fun c => c.email == email) with
  | some c => (.ok c.customer_id, st)
  | none =>
    if env.insert_customer_returns_row then
      (.ok env.customer_id,
       { st with customers := st.customers ++ [⟨env.customer_id, email⟩] })
    else (.error .createCustomerFailed, st)

/-- `PaymentIntentService.create_payment_intent`: validate the chain pair,
load the vendor, check the vendor's enabled source chains, re-validate the
pair, generate the calldata, resolve the customer, insert the intent as
CREATED, immediately update it to AWAITING_USER_TX, send the
`payment_intent.created` webhook (exceptions swallowed), and return the
intent. -/
def create_payment_intent (st : Store) (pd : PaymentIntentCreate) (env : CreateEnv) :
    (Except AppError IntentRow) × Store :=
  if validate_chain_support pd.src_chain_id pd.dest_chain_id = false then
    (.error .unsupportedChainCombination, st)
  else
    match st.vendors.find? (fun v => v.vendor_id == pd.vendor_id) with
    | none => (.error .vendorNotFound, st)
    | some vendor =>
      if (pd.src_chain_id ∈ vendor.enabled_source_chains : Bool) = false then
        (.error .sourceChainNotEnabled, st)
      else if validate_chain_support pd.src_chain_id pd.dest_chain_id = false then
        (.error .unsupportedChainCombination, st)
      else
        match generate_payment_calldata vendor.wallet_address pd.amount_usdc_minor
            pd.src_chain_id pd.dest_chain_id env.intent_id PaymentType.simple none with
        | .error e => (.error e, st)
        | .ok router_info =>
          let custRes :=
            match pd.customer_email with
            | none => (Except.ok (none : Option (List Char)), st)
            | some email =>
              match get_or_create_customer st email env with
              | (.ok cid, st1) => (.ok (some cid), st1)
              | (.error e, st1) => (.error e, st1)
          match custRes with
          | (.error e, st1) => (.error e, st1)
          | (.ok customer_id, st1) =>
            if env.insert_intent_returns_row = false then (.error .createIntentFailed, st1)
            else
              let row : IntentRow :=
                { intent_id := env.intent_id, vendor_id := pd.vendor_id,
                  product_id := pd.product_id, customer_id := customer_id,
                  customer_email := pd.customer_email,
                  src_chain_id := pd.src_chain_id, dest_chain_id := pd.dest_chain_id,
                  amount_usdc_minor := pd.amount_usdc_minor,
                  status := .created,
                  router_address := router_info.address,
                  router_function := router_info.function,
                  calldata_hex := router_info.calldata,
                  src_tx_hash := none, dest_tx_hash := none }
              let st2 := { st1 with payment_intents := st1.payment_intents ++ [row] }
              let st3 := { st2 with payment_intents := st2.payment_intents.map (fun r =>
                if r.intent_id == env.intent_id then { r with status := .awaiting_user_tx }
                else r) }
              let sw := send_webhook st3 pd.vendor_id "payment_intent.created".data
                ("payment_intent.created".data ++ env.intent_id) env.wenv
              (.ok { row with status := .awaiting_user_tx }, sw.2)

/-- `PaymentIntentService.update_source_transaction`: one conditional-free
update keyed on `intent_id` alone, setting `src_tx_hash` and status
SUBMITTED; `None` when no row matched; then the `payment_intent.submitted`
webhook (exceptions swallowed) and the re-read row. -/
def sourceTxUpdate (tx_hash : List Char) (r : IntentRow) : IntentRow :=
  { r with src_tx_hash := some tx_hash, status := .submitted }

/-- The store after the `update(...).eq("intent_id", iid)` write of
`update_source_transaction`. -/
def update_source_transaction (st : Store) (intent_id tx_hash : List Char)
    (wenv : WebhookEnv) : Option IntentRow × Store :=
  if (st.payment_intents.filter (fun r => r.intent_id == intent_id)).map
      (sourceTxUpdate tx_hash) = [] then
    (none, { st with payment_intents := st.payment_intents.map (fun r =>
      if r.intent_id == intent_id then sourceTxUpdate tx_hash r else r) })
  else
    match findIntent { st with payment_intents := st.payment_intents.map (fun r =>
        if r.intent_id == intent_id then sourceTxUpdate tx_hash r else r) } intent_id with
    | none => (none, { st with payment_intents := st.payment_intents.map (fun r =>
        if r.intent_id == intent_id then sourceTxUpdate tx_hash r else r) })
    | some row =>
      (some row,
       (send_webhook { st with payment_intents := st.payment_intents.map (fun r =>
          if r.intent_id == intent_id then sourceTxUpdate tx_hash r else r) }
        row.vendor_id "payment_intent.submitted".data
        ("payment_intent.submitted".data ++ intent_id) wenv).2)

/-- `PaymentIntentService.update_destination_transaction`: the same
unconditional update shape, setting `dest_tx_hash` and status SETTLED, then
the `payment_intent.settled` webhook. -/
def destTxUpdate (tx_hash : List Char) (r : IntentRow) : IntentRow :=
  { r with dest_tx_hash := some tx_hash, status := .settled }

def update_destination_transaction (st : Store) (intent_id tx_hash : List Char)
    (wenv : WebhookEnv) : Option IntentRow × Store :=
  if (st.payment_intents.filter (fun r => r.intent_id == intent_id)).map
      (destTxUpdate tx_hash) = [] then
    (none, { st with payment_intents := st.payment_intents.map (fun r =>
      if r.intent_id == intent_id then destTxUpdate tx_hash r else r) })
  else
    match findIntent { st with payment_intents := st.payment_intents.map (fun r =>
        if r.intent_id == intent_id then destTxUpdate tx_hash r else r) } intent_id with
    | none => (none, { st with payment_intents := st.payment_intents.map (fun r =>
        if r.intent_id == intent_id then destTxUpdate tx_hash r else r) })
    | some row =>
      (some row,
       (send_webhook { st with payment_intents := st.payment_intents.map (fun r =>
          if r.intent_id == intent_id then destTxUpdate tx_hash r else r) }
        row.vendor_id "payment_intent.settled".data
        ("payment_intent.settled".data ++ intent_id) wenv).2)

/-! ## Concrete stores for the state-machine claims -/

/-- A 66-character transaction hash. -/
def txHashA : List Char :=
  "0x1234567890abcdef1234567890abcdef1234567890abcdef1234567890abcdef".data

/-- Webhook environment whose delivery attempt fails at transport level. -/
def wenvA : WebhookEnv :=
  { now := 0, new_event_id := 1, outcome := .transportError "connection refused".data,
    vendor_lookup_raises := false, insert_returns_row := true }

/-- A SETTLED intent row. -/
def settledRowC1 : IntentRow :=
  { intent_id := "pi_1".data, vendor_id := "v_1".data, product_id := "p_1".data,
    customer_id := none, customer_email := none,
    src_chain_id := 84532, dest_chain_id := 8453, amount_usdc_minor := 990000,
    status := .settled,
    router_address := "0x3456789012345678901234567890123456789012".data,
    router_function := "bridgePayment".data, calldata_hex := "0x23b872dd".data,
    src_tx_hash := some txHashA, dest_tx_hash := some txHashA }

/-- A store holding only the SETTLED intent. -/
def storeC1 : Store :=
  { vendors := [], customers := [], payment_intents := [settledRowC1],
    webhook_events := [] }

/-- A SUBMITTED intent row keyed `pi_4`. -/
def submittedRowC4 : IntentRow :=
  { settledRowC1 with
      intent_id := "pi_4".data, status := .submitted, dest_tx_hash := none }

/-- A store holding only the SUBMITTED intent `pi_4`. -/
def storeC4 : Store :=
  { vendors := [], customers := [], payment_intents := [submittedRowC4],
    webhook_events := [] }

/-- A SUBMITTED intent row keyed `pi_5`. -/
def submittedRowC5 : IntentRow :=
  { settledRowC1 with
      intent_id := "pi_5".data, status := .submitted, dest_tx_hash := none }

/-- A store holding only the SUBMITTED intent `pi_5`. -/
def storeC5 : Store :=
  { vendors := [], customers := [], payment_intents := [submittedRowC5],
    webhook_events := [] }

/-- The create-intent request of scenario B with an unregistered source
chain id. -/
def pdC9 : PaymentIntentCreate :=
  { vendor_id := "v_9".data, product_id := "p_9".data, src_chain_id := 999,
    dest_chain_id := 8453, amount_usdc_minor := 100, customer_email := none }

/-- Environment for the concrete C9 call. -/
def cenvC9 : CreateEnv :=
  { intent_id := "pi_9".data, customer_id := "cust_9".data, now := 0,
    wenv := wenvA, insert_intent_returns_row := true,
    insert_customer_returns_row := true }

/-- A store whose vendor `v_9` even has chain 999 enabled, so only the
registry check can reject the request. -/
def storeC9 : Store :=
  { vendors := [VendorRow.mk "v_9".data
      "0x1111111111111111111111111111111111111111".data
      8453 [999] (some "http://hook.example".data)],
    customers := [], payment_intents := [], webhook_events := [] }

/-! ## The webhook attempt/backoff/expire step in closed form -/

/-- The outcomes `_attempt_webhook_delivery` records as failures: a non-2xx
HTTP response or a transport-level exception. -/
def failingOutcome : DeliveryOutcome → Prop
  | .response code _ => ¬(200 ≤ code ∧ code < 300)
  | .transportError _ => True

/-- The `response_status` recorded for an outcome (0 for an exception). -/
def outcomeRespStatus : DeliveryOutcome → Nat
  | .response code _ => code
  | .transportError _ => 0

/-- The truncated `response_body` recorded for an outcome. -/
def outcomeRespBody : DeliveryOutcome → List Char
  | .response _ body => body.take 1000
  | .transportError msg => ("Delivery failed: ".data ++ msg).take 1000

/-- A fresh PENDING webhook event (attempts 0, max 3) keyed id 7, due at 100. -/
def eventFreshC2 : WebhookEventRow :=
  { id := 7, vendor_id := "v_1".data, event_type := "payment_intent.created".data,
    payload := "snapshot".data, webhook_url := "http://hook.example".data,
    status := .pending, attempts := 0, max_attempts := 3, next_retry_at := 100,
    response_status := none, response_body := none }

/-- Store holding only the fresh event. -/
def storeEvC2 : Store :=
  { vendors := [], customers := [], payment_intents := [],
    webhook_events := [eventFreshC2] }

/-- One failed delivery invocation of event 7 at time `t`. -/
def failC2 (st : Store) (t : Nat) : Store :=
  deliveryInvocation st 7 (.transportError "connection refused".data) t

/-- The store after three failed invocations at times 101, 200, 300. -/
def stC2_1 : Store := failC2 storeEvC2 101

/-- After the second failed invocation. -/
def stC2_2 : Store := failC2 stC2_1 200

/-- After the third failed invocation. -/
def stC2_3 : Store := failC2 stC2_2 300

/-- An exhausted event (attempts 3 of 3), still FAILED, keyed id 8. -/
def eventSpentC2 : WebhookEventRow :=
  { eventFreshC2 with
      id := 8, status := .failed, attempts := 3, next_retry_at := 308 }

/-- Store holding only the exhausted event. -/
def storeEvC2x : Store :=
  { vendors := [], customers := [], payment_intents := [],
    webhook_events := [eventSpentC2] }

/-- A fresh PENDING event keyed 9, alongside one SENT (10) and one
EXPIRED (11) event. -/
def eventFreshC3 : WebhookEventRow :=
  { eventFreshC2 with id := 9 }

/-- The SENT companion event. -/
def eventSentC3 : WebhookEventRow :=
  { eventFreshC2 with id := 10, status := .sent, attempts := 1 }

/-- The EXPIRED companion event. -/
def eventExpiredC3 : WebhookEventRow :=
  { eventFreshC2 with id := 11, status := .expired, attempts := 3 }

/-- Store with the three events. -/
def storeEvC3 : Store :=
  { vendors := [], customers := [], payment_intents := [],
    webhook_events := [eventFreshC3, eventSentC3, eventExpiredC3] }

/-- The C3 store after event 9's delivery attempt fails once. -/
def stC3_1 : Store := deliveryInvocation storeEvC3 9 (.transportError "down".data) 100

/-- A vendor with a configured webhook URL, for the C10 witness. -/
def vendorC10 : VendorRow :=
  VendorRow.mk "v_10".data "0x2222222222222222222222222222222222222222".data
    8453 [84532] (some "http://hook.example".data)

/-- Store holding only that vendor. -/
def storeC10 : Store :=
  { vendors := [vendorC10], customers := [], payment_intents := [],
    webhook_events := [] }

/-- Environment whose delivery attempt gets HTTP 500. -/
def wenvC10fail : WebhookEnv :=
  { now := 50, new_event_id := 2, outcome := .response 500 "err".data,
    vendor_lookup_raises := false, insert_returns_row := true }

/-- Environment whose delivery attempt gets HTTP 200. -/
def wenvC10ok : WebhookEnv :=
  { now := 50, new_event_id := 3, outcome := .response 200 "ok".data,
    vendor_lookup_raises := false, insert_returns_row := true }

/-! ## Theorems -/

theorem get_chain_config_eq_none_of_not_mem {cid : Nat}
    (h : cid ∉ get_supported_chains) : get_chain_config cid = none := by
  unfold get_chain_config
  rw [List.find?_eq_none.mpr]
  · rfl
  · intro p hp hbeq
    exact h (by
      simp only [get_supported_chains, List.mem_map]
      exact ⟨p, hp, by simpa using (eq_of_beq hbeq)⟩)

/-- C6: for every amount and every chain id in the registry,
`calculate_bridge_fee` returns `⌊amount * fee_bps / 10000⌋` with that chain's
configured `bridge_fee_bps`; for a chain id outside the registry it returns 0;
and on amount 990000 from chain 84532 (fee_bps 5) the fee is 495, for a total
of 990495. -/
theorem C6_bridge_fee_floor (amount : Nat) :
    (∀ cid cfg, get_chain_config cid = some cfg →
      calculate_bridge_fee amount cid =
        ⌊((amount * cfg.bridgeFeeBps.getD 5 : Nat) : ℚ) / 10000⌋₊) ∧
    (∀ cid, cid ∉ get_supported_chains → calculate_bridge_fee amount cid = 0) ∧
    calculate_bridge_fee 990000 84532 = 495 ∧
    990000 + calculate_bridge_fee 990000 84532 = 990495 := by
  refine ⟨?_, ?_, by decide, by decide⟩
  · intro cid cfg h
    unfold calculate_bridge_fee
    rw [h]
    rw [show ((10000 : ℚ)) = ((10000 : ℕ) : ℚ) from by norm_num,
       Nat.floor_div_nat, Nat.floor_natCast]
  · intro cid h
    unfold calculate_bridge_fee
    rw [get_chain_config_eq_none_of_not_mem h]

/-- Witness for C6: instantiates the registry branch at chain 84532 and the
unknown-chain branch at chain 999. -/
theorem C6_bridge_fee_floor_witness :
    calculate_bridge_fee 990000 84532 =
      ⌊((990000 * (baseSepoliaCfg.bridgeFeeBps.getD 5) : Nat) : ℚ) / 10000⌋₊ ∧
    calculate_bridge_fee 990000 999 = 0 :=
  ⟨(C6_bridge_fee_floor 990000).1 84532 baseSepoliaCfg (by decide),
   (C6_bridge_fee_floor 990000).2.1 999 (by decide)⟩

theorem hexDigitChar_mem_hexLower (n : Nat) : hexDigitChar n ∈ hexLowerChars := by
  unfold hexDigitChar
  unfold List.getD
  rcases h : hexLowerChars.get? n with _ | c
  · simp [Option.getD]
    decide
  · simpa [Option.getD] using List.get?_mem h

theorem hexDigitsAux_mem :
    ∀ (f n : Nat) {c : Char}, c ∈ hexDigitsAux f n → c ∈ hexLowerChars := by
  intro f
  induction f with
  | zero =>
    intro n c h
    simp [hexDigitsAux] at h
  | succ f ih =>
    intro n c h
    match n with
    | 0 => simp [hexDigitsAux] at h
    | m + 1 =>
      simp only [hexDigitsAux] at h
      rcases List.mem_cons.mp h with rfl | htail
      · exact hexDigitChar_mem_hexLower _
      · exact ih _ htail

theorem hexDigitsLE_mem {n : Nat} {c : Char} (h : c ∈ hexDigitsLE n) :
    c ∈ hexLowerChars := hexDigitsAux_mem n n h

theorem hexRepr_mem {n : Nat} {c : Char} (h : c ∈ hexRepr n) : c ∈ hexLowerChars := by
  unfold hexRepr at h
  split at h
  · simp at h
    subst h
    decide
  · exact hexDigitsLE_mem (List.mem_reverse.mp h)

theorem hexDigitsAux_length_le :
    ∀ (f n k : Nat), n < 16 ^ k → (hexDigitsAux f n).length ≤ k := by
  intro f
  induction f with
  | zero =>
    intro n k _
    simp [hexDigitsAux]
  | succ f ih =>
    intro n k h
    match n with
    | 0 => simp [hexDigitsAux]
    | m + 1 =>
      match k with
      | 0 => norm_num at h
      | k + 1 =>
        simp only [hexDigitsAux, List.length_cons]
        have hlt : (m + 1) / 16 < 16 ^ k := by
          rw [Nat.div_lt_iff_lt_mul (by norm_num)]
          calc m + 1 < 16 ^ (k + 1) := h
          _ = 16 ^ k * 16 := by rw [pow_succ]
        exact Nat.succ_le_succ (ih _ _ hlt)

theorem hexDigitsLE_length_le {n k : Nat} (h : n < 16 ^ k) :
    (hexDigitsLE n).length ≤ k := hexDigitsAux_length_le n n k h

theorem hexRepr_length_le {n : Nat} (h : n < 16 ^ 64) : (hexRepr n).length ≤ 64 := by
  unfold hexRepr
  split
  · simp
  · rw [List.length_reverse]
    exact hexDigitsLE_length_le h

theorem zfill64_length {s : List Char} (h : s.length ≤ 64) :
    (zfill64 s).length = 64 := by
  unfold zfill64
  simp [List.length_append, List.length_replicate]
  omega

theorem zfill64_mem {s : List Char} {c : Char} (hc : c ∈ zfill64 s) :
    c ∈ s ∨ c = '0' := by
  unfold zfill64 at hc
  rcases List.mem_append.mp hc with h | h
  · exact Or.inr (List.eq_of_mem_replicate h)
  · exact Or.inl h

theorem lowerChar_hex {c : Char} (h : c ∈ hexAnyChars) :
    lowerChar c ∈ hexLowerChars := by
  fin_cases h <;> decide

set_option maxRecDepth 100000 in
/-- Validation of the SHA-256 model against the FIPS 180-4 test vector
`sha256("abc") = ba7816bf…15ad`. -/
theorem sha256_abc_vector :
    sha256Hex (utf8Encode "abc".data) =
      "ba7816bf8f01cfea414140de5dae2223b00361a396177a9cb410ff61f20015ad".data := by
  decide

/-! ## Shape lemmas for the encoders -/

theorem encode_address_length {a : List Char} (h : (strip0x a).length ≤ 64) :
    (encode_address a).length = 64 := by
  apply zfill64_length
  simpa [lowerStr] using h

theorem encode_address_hex {a : List Char} (hhex : ∀ c ∈ strip0x a, c ∈ hexAnyChars) :
    ∀ c ∈ encode_address a, c ∈ hexLowerChars := by
  intro c hc
  rcases zfill64_mem hc with h | rfl
  · rcases List.mem_map.mp h with ⟨d, hd, rfl⟩
    exact lowerChar_hex (hhex d hd)
  · decide

theorem encode_uint_length {n : Nat} (h : n < 16 ^ 64) :
    (zfill64 (hexRepr n)).length = 64 := zfill64_length (hexRepr_length_le h)

theorem encode_uint_hex (n : Nat) : ∀ c ∈ zfill64 (hexRepr n), c ∈ hexLowerChars := by
  intro c hc
  rcases zfill64_mem hc with h | rfl
  · exact hexRepr_mem h
  · decide

theorem shaCompress_length (hs block : List Nat) : (shaCompress hs block).length = 8 := by
  rfl

theorem foldl_shaCompress_length (l : List (List Nat)) :
    ∀ hs, hs.length = 8 → (l.foldl shaCompress hs).length = 8 := by
  induction l with
  | nil => intro hs h; simpa using h
  | cons b t ih => intro hs _; exact ih _ (shaCompress_length hs b)

theorem sha256Words_length (msg : List Nat) : (sha256Words msg).length = 8 :=
  foldl_shaCompress_length _ _ (by decide)

theorem flatten_map_wordBytes_length (ws : List Nat) :
    ((ws.map wordBytes).flatten).length = 4 * ws.length := by
  induction ws with
  | nil => simp
  | cons w t ih =>
    simp only [List.map_cons, List.flatten_cons, List.length_append, ih,
      List.length_cons, wordBytes]
    simp
    ring

theorem sha256Bytes_length (msg : List Nat) : (sha256Bytes msg).length = 32 := by
  unfold sha256Bytes
  rw [flatten_map_wordBytes_length, sha256Words_length]

theorem flatten_map_byteHex_length (bs : List Nat) :
    ((bs.map byteHex).flatten).length = 2 * bs.length := by
  induction bs with
  | nil => simp
  | cons b t ih =>
    simp only [List.map_cons, List.flatten_cons, List.length_append, ih,
      List.length_cons, byteHex]
    simp
    ring

theorem sha256Hex_length (msg : List Nat) : (sha256Hex msg).length = 64 := by
  unfold sha256Hex
  rw [flatten_map_byteHex_length, sha256Bytes_length]

theorem sha256Hex_mem (msg : List Nat) : ∀ c ∈ sha256Hex msg, c ∈ hexLowerChars := by
  intro c hc
  unfold sha256Hex at hc
  rcases List.mem_flatten.mp hc with ⟨l, hl, hcl⟩
  rcases List.mem_map.mp hl with ⟨b, _, rfl⟩
  unfold byteHex at hcl
  simp only [List.mem_cons, List.not_mem_nil, or_false] at hcl
  rcases hcl with rfl | rfl <;> exact hexDigitChar_mem_hexLower _

theorem encode_bytes32_length (v : List Char) : (encode_bytes32 v).length = 64 := by
  unfold encode_bytes32
  split
  next h => simpa [lowerStr] using h
  next => exact sha256Hex_length _

theorem encode_bytes32_hex {v : List Char}
    (hhex : (strip0x v).length = 64 → ∀ c ∈ strip0x v, c ∈ hexAnyChars) :
    ∀ c ∈ encode_bytes32 v, c ∈ hexLowerChars := by
  intro c hc
  unfold encode_bytes32 at hc
  split at hc
  next h =>
    rcases List.mem_map.mp hc with ⟨d, hd, rfl⟩
    exact lowerChar_hex (hhex h d hd)
  next => exact sha256Hex_mem _ _ hc

theorem lowerChar_fixed {c : Char} (h : c ∈ hexLowerChars) : lowerChar c = c := by
  fin_cases h <;> decide

theorem lowerStr_fixed : ∀ (l : List Char), (∀ c ∈ l, c ∈ hexLowerChars) →
    lowerStr l = l := by
  intro l
  induction l with
  | nil => intro _; rfl
  | cons x t ih =>
    intro h
    simp only [lowerStr, List.map_cons, List.cons.injEq]
    exact ⟨lowerChar_fixed (h x (List.mem_cons_self x t)),
      ih (fun c hc => h c (List.mem_cons_of_mem x hc))⟩

theorem get_chain_config_isSome_of_mem {cid : Nat} (h : cid ∈ get_supported_chains) :
    ∃ cfg, get_chain_config cid = some cfg := by
  unfold get_supported_chains at h
  rcases List.mem_map.mp h with ⟨p, hp, rfl⟩
  have hfind : (CHAIN_CONFIGS.find? (fun q => q.1 == p.1)).isSome :=
    List.find?_isSome.mpr ⟨p, hp, by simp⟩
  rcases Option.isSome_iff_exists.mp hfind with ⟨q, hq⟩
  exact ⟨q.2, by unfold get_chain_config; rw [hq]; rfl⟩

theorem functions_get_create :
    functions_get "createPayment".data = some createPaymentDef := by rfl

theorem functions_get_bridge :
    functions_get "bridgePayment".data = some bridgePaymentDef := by rfl

theorem pyOr_none (b : List Char) : pyOr none b = b := rfl

/-- Closed form of `generate_payment_calldata` on a supported source chain,
with the service-layer defaults (`payment_type=SIMPLE`, no bridge address). -/
theorem generate_payment_calldata_eq {src : Nat} {cfg : ChainCfg}
    (hcfg : get_chain_config src = some cfg)
    (w : List Char) (a : Nat) (dest : Nat) (pid : List Char) :
    generate_payment_calldata w a src dest pid PaymentType.simple none =
      .ok (RouterInfo.mk (pyOr (get_router_address src) default_router_address) src
        (if src = dest then "createPayment".data else "bridgePayment".data)
        (if src = dest then encode_create_payment w a src dest pid
         else encode_bridge_payment w a src dest
           (pyOr cfg.bridgeAddress "0x0".data) pid)
        (cfg.gasLimit.getD 300000)
        (if src = dest then 0 else calculate_bridge_fee a src)
        (EstimatedCost.mk (cfg.gasLimit.getD 300000)
          (if src = dest then 0 else calculate_bridge_fee a src)
          (a + (if src = dest then 0 else calculate_bridge_fee a src)))) := by
  unfold generate_payment_calldata
  rw [hcfg]
  by_cases hsd : src = dest
  · have hsel : select_optimal_function src dest PaymentType.simple 1 =
        "createPayment".data := by
      simp [select_optimal_function, hsd]
    rw [hsel]
    dsimp only
    rw [functions_get_create]
    dsimp only
    simp [hsd]
  · have hsel : select_optimal_function src dest PaymentType.simple 1 =
        "bridgePayment".data := by
      simp [select_optimal_function, hsd]
    rw [hsel]
    dsimp only
    rw [functions_get_bridge]
    dsimp only
    simp [hsd, pyOr_none]

theorem bridgeAddress_none_of_get {cid : Nat} {cfg : ChainCfg}
    (h : get_chain_config cid = some cfg) : cfg.bridgeAddress = none := by
  unfold get_chain_config at h
  rcases Option.map_eq_some'.mp h with ⟨q, hq, rfl⟩
  have hmem : q ∈ CHAIN_CONFIGS := List.mem_of_find?_eq_some hq
  have hall : ∀ p ∈ CHAIN_CONFIGS, p.2.bridgeAddress = none := by decide
  exact hall q hmem

theorem selector_tail_hex_create : ∀ c ∈ "a9059cbb".data, c ∈ hexLowerChars := by
  decide

theorem selector_tail_hex_bridge : ∀ c ∈ "23b872dd".data, c ∈ hexLowerChars := by
  decide

/-- C7: on a supported source chain (and ABI-well-formed inputs: a hex wallet
address, `uint256`-range integers, and a payment id that is hex if it is
already 64 characters long), the generated calldata is a `0x`-prefixed
lowercase-hex string made of the 8-character selector plus one 64-character
segment per declared parameter: `createPayment` with 5 segments when
`src = dest` (total length 330 with the `0x` prefix), `bridgePayment` with 6
segments when they differ (total length 394). -/
theorem C7_calldata_shape (w : List Char) (a src dest : Nat) (pid : List Char)
    (hsrc : src ∈ get_supported_chains)
    (hw_len : (strip0x w).length ≤ 64)
    (hw_hex : ∀ c ∈ strip0x w, c ∈ hexAnyChars)
    (ha : a < 16 ^ 64) (hs : src < 16 ^ 64) (hd : dest < 16 ^ 64)
    (hpid : (strip0x pid).length = 64 → ∀ c ∈ strip0x pid, c ∈ hexAnyChars) :
    ∃ info : RouterInfo,
      generate_payment_calldata w a src dest pid PaymentType.simple none = .ok info ∧
      info.function = (if src = dest then "createPayment".data else "bridgePayment".data) ∧
      (∃ fdef, functions_get info.function = some fdef ∧
        fdef.parameters.length = if src = dest then 5 else 6) ∧
      (src = dest → info.calldata = encode_create_payment w a src dest pid) ∧
      (src ≠ dest → info.calldata = encode_bridge_payment w a src dest "0x0".data pid) ∧
      info.calldata.take 2 = "0x".data ∧
      (∀ c ∈ info.calldata.drop 2, c ∈ hexLowerChars) ∧
      info.calldata.length = 2 + 8 + 64 * (if src = dest then 5 else 6) := by
  obtain ⟨cfg, hcfg⟩ := get_chain_config_isSome_of_mem hsrc
  have hbr : cfg.bridgeAddress = none := bridgeAddress_none_of_get hcfg
  have heq := generate_payment_calldata_eq hcfg w a dest pid
  rw [hbr] at heq
  have hlenA : (encode_address w).length = 64 := encode_address_length hw_len
  have hlenU : (encode_uint256 a).length = 64 := encode_uint_length ha
  have hlenS : (encode_uint32 src).length = 64 := encode_uint_length hs
  have hlenD : (encode_uint32 dest).length = 64 := encode_uint_length hd
  have hlenP : (encode_bytes32 pid).length = 64 := encode_bytes32_length pid
  have hlenBr : (encode_address "0x0".data).length = 64 :=
    encode_address_length (by decide)
  by_cases hsd : src = dest
  · simp only [if_pos hsd] at heq
    refine ⟨_, heq, ?_, ?_, ?_, ?_, ?_, ?_, ?_⟩
    · simp [hsd]
    · exact ⟨createPaymentDef, functions_get_create, by simp [hsd]; rfl⟩
    · intro _; rfl
    · intro hne; exact absurd hsd hne
    · rfl
    · intro c hc
      have hdrop : (encode_create_payment w a src dest pid).drop 2 =
          "a9059cbb".data ++ encode_address w ++ encode_uint256 a ++
            encode_uint32 src ++ encode_uint32 dest ++ encode_bytes32 pid := rfl
      rw [hdrop] at hc
      simp only [List.mem_append] at hc
      rcases hc with ((((h | h) | h) | h) | h) | h
      · exact selector_tail_hex_create c h
      · exact encode_address_hex hw_hex c h
      · exact encode_uint_hex a c h
      · exact encode_uint_hex src c h
      · exact encode_uint_hex dest c h
      · exact encode_bytes32_hex hpid c h
    · show (encode_create_payment w a src dest pid).length = _
      unfold encode_create_payment
      simp [List.length_append, hlenA, hlenU, hlenS, hlenD, hlenP, hsd]
  · simp only [if_neg hsd] at heq
    refine ⟨_, heq, ?_, ?_, ?_, ?_, ?_, ?_, ?_⟩
    · simp [hsd]
    · exact ⟨bridgePaymentDef, functions_get_bridge, by simp [hsd]; rfl⟩
    · intro hcontra; exact absurd hcontra hsd
    · intro _; rfl
    · rfl
    · intro c hc
      have hdrop : (encode_bridge_payment w a src dest (pyOr none "0x0".data) pid).drop 2 =
          "23b872dd".data ++ encode_address w ++ encode_uint256 a ++
            encode_uint32 src ++ encode_uint32 dest ++
            encode_address "0x0".data ++ encode_bytes32 pid := rfl
      rw [hdrop] at hc
      simp only [List.mem_append] at hc
      rcases hc with (((((h | h) | h) | h) | h) | h) | h
      · exact selector_tail_hex_bridge c h
      · exact encode_address_hex hw_hex c h
      · exact encode_uint_hex a c h
      · exact encode_uint_hex src c h
      · exact encode_uint_hex dest c h
      · exact encode_address_hex (by decide) c h
      · exact encode_bytes32_hex hpid c h
    · show (encode_bridge_payment w a src dest (pyOr none "0x0".data) pid).length = _
      unfold encode_bridge_payment
      simp [List.length_append, hlenA, hlenU, hlenS, hlenD, hlenP, hsd,
        show pyOr none "0x0".data = "0x0".data from rfl, hlenBr]

/-- Witness for C7: the cross-chain pair (84532, 8453) with concrete
well-formed inputs. -/
theorem C7_calldata_shape_witness :
    ∃ info : RouterInfo,
      generate_payment_calldata w7 990000 84532 8453 pid7 PaymentType.simple none =
        .ok info ∧
      info.function = (if 84532 = 8453 then "createPayment".data else "bridgePayment".data) ∧
      (∃ fdef, functions_get info.function = some fdef ∧
        fdef.parameters.length = if 84532 = 8453 then 5 else 6) ∧
      (84532 = 8453 → info.calldata = encode_create_payment w7 990000 84532 8453 pid7) ∧
      (84532 ≠ 8453 →
        info.calldata = encode_bridge_payment w7 990000 84532 8453 "0x0".data pid7) ∧
      info.calldata.take 2 = "0x".data ∧
      (∀ c ∈ info.calldata.drop 2, c ∈ hexLowerChars) ∧
      info.calldata.length = 2 + 8 + 64 * (if 84532 = 8453 then 5 else 6) :=
  C7_calldata_shape w7 990000 84532 8453 pid7 (by decide) (by decide) (by decide)
    (by decide) (by decide) (by decide) (by decide)

/-- C8 counterexample: an identifier that is already a 64-hex-character value
is NOT passed through verbatim — `encode_bytes32` lowercases it, so an
uppercase 64-hex identifier comes out different from itself. -/
theorem C8_counterexample :
    (strip0x pidUpperC8).length = 64 ∧
    (∀ c ∈ strip0x pidUpperC8, c ∈ hexAnyChars) ∧
    encode_bytes32 pidUpperC8 ≠ strip0x pidUpperC8 ∧
    encode_bytes32 pidUpperC8 =
      "00000000000000000000000000000000000000000000000000000000000000ab".data := by
  refine ⟨by decide, by decide, by decide, by decide⟩

/-- C8 (amended): after stripping an optional `0x` prefix, a 64-character
identifier is passed through lowercased (hence verbatim exactly when it is
already lowercase), and any other identifier is replaced by the SHA-256
digest of the stripped identifier's UTF-8 bytes, rendered as 64 lowercase
hex characters. -/
theorem C8_bytes32_encoding (v : List Char) :
    ((strip0x v).length = 64 → encode_bytes32 v = lowerStr (strip0x v)) ∧
    ((strip0x v).length = 64 → (∀ c ∈ strip0x v, c ∈ hexLowerChars) →
      encode_bytes32 v = strip0x v) ∧
    ((strip0x v).length ≠ 64 →
      encode_bytes32 v = sha256Hex (utf8Encode (strip0x v)) ∧
      (encode_bytes32 v).length = 64 ∧
      ∀ c ∈ encode_bytes32 v, c ∈ hexLowerChars) := by
  refine ⟨?_, ?_, ?_⟩
  · intro h
    unfold encode_bytes32
    rw [if_pos h]
  · intro h hlow
    unfold encode_bytes32
    rw [if_pos h]
    exact lowerStr_fixed (strip0x v) hlow
  · intro h
    refine ⟨?_, encode_bytes32_length v, ?_⟩
    · unfold encode_bytes32
      rw [if_neg h]
    · exact encode_bytes32_hex (fun hl => absurd hl h)

/-- Witness for C8 (amended): the digest branch at a service-style id and the
lowercase pass-through branch at a lowercase 64-hex value. -/
theorem C8_bytes32_encoding_witness :
    encode_bytes32 "pi_0123abc".data =
      sha256Hex (utf8Encode (strip0x "pi_0123abc".data)) ∧
    encode_bytes32
        "00000000000000000000000000000000000000000000000000000000000000ab".data =
      strip0x
        "00000000000000000000000000000000000000000000000000000000000000ab".data :=
  ⟨((C8_bytes32_encoding "pi_0123abc".data).2.2 (by decide)).1,
   (C8_bytes32_encoding _).2.1 (by decide) (by decide)⟩

/-! ## Lemmas about keyed conditional maps (the supabase
`update(...).eq(key, value)` shape) -/

theorem find?_update_intents (rows : List IntentRow) (iid : List Char)
    (f : IntentRow → IntentRow) (hf : ∀ r, (f r).intent_id = r.intent_id) :
    (rows.map (fun r => if r.intent_id == iid then f r else r)).find?
        (fun r => r.intent_id == iid) =
      (rows.find? (fun r => r.intent_id == iid)).map f := by
  induction rows with
  | nil => rfl
  | cons r t ih =>
    by_cases hr : (r.intent_id == iid) = true
    · simp only [List.map_cons, if_pos hr, List.find?_cons]
      rw [show ((f r).intent_id == iid) = true from by rw [hf]; exact hr, hr]
      rfl
    · simp only [List.map_cons, if_neg hr, List.find?_cons]
      rw [Bool.of_not_eq_true hr]
      exact ih

theorem find?_update_webhooks (rows : List WebhookEventRow) (eid : Nat)
    (f : WebhookEventRow → WebhookEventRow) (hf : ∀ r, (f r).id = r.id) :
    (rows.map (fun r => if r.id == eid then f r else r)).find?
        (fun r => r.id == eid) =
      (rows.find? (fun r => r.id == eid)).map f := by
  induction rows with
  | nil => rfl
  | cons r t ih =>
    by_cases hr : (r.id == eid) = true
    · simp only [List.map_cons, if_pos hr, List.find?_cons]
      rw [show ((f r).id == eid) = true from by rw [hf]; exact hr, hr]
      rfl
    · simp only [List.map_cons, if_neg hr, List.find?_cons]
      rw [Bool.of_not_eq_true hr]
      exact ih

theorem filter_eq_nil_iff_find?_none (rows : List IntentRow) (iid : List Char) :
    rows.filter (fun x => x.intent_id == iid) = [] ↔
      rows.find? (fun x => x.intent_id == iid) = none := by
  rw [List.filter_eq_nil_iff, List.find?_eq_none]

/-! ## Store-preservation lemmas for the webhook engine -/

theorem attempt_webhook_delivery_intents (st : Store) (eid : Nat) (o : DeliveryOutcome)
    (now : Nat) :
    (attempt_webhook_delivery st eid o now).1.payment_intents = st.payment_intents := by
  unfold attempt_webhook_delivery
  split
  · rfl
  · split
    · rfl
    · split <;> rfl

theorem schedule_retry_intents (st : Store) (eid : Nat) (now : Nat) :
    (schedule_retry st eid now).payment_intents = st.payment_intents := by
  unfold schedule_retry
  split
  · rfl
  · rfl

theorem deliveryInvocation_intents (st : Store) (eid : Nat) (o : DeliveryOutcome)
    (now : Nat) :
    (deliveryInvocation st eid o now).payment_intents = st.payment_intents := by
  unfold deliveryInvocation
  by_cases hb : (attempt_webhook_delivery st eid o now).2 = true
  · simp only [hb, if_true]
    exact attempt_webhook_delivery_intents st eid o now
  · simp only [Bool.not_eq_true] at hb
    simp only [hb]
    rw [if_neg Bool.false_ne_true]
    rw [schedule_retry_intents, attempt_webhook_delivery_intents]

theorem send_webhook_intents (st : Store) (vid et pl : List Char) (env : WebhookEnv) :
    (send_webhook st vid et pl env).2.payment_intents = st.payment_intents := by
  unfold send_webhook
  split
  · rfl
  · split
    · rfl
    · split
      · rfl
      · split
        · rfl
        · split
          · rfl
          · exact deliveryInvocation_intents _ _ _ _

/-! ## Behaviour of the two transaction-report operations -/

theorem update_source_none {st : Store} {iid : List Char} (tx : List Char)
    (env : WebhookEnv) (h : findIntent st iid = none) :
    (update_source_transaction st iid tx env).1 = none := by
  have hfilter : st.payment_intents.filter (fun r => r.intent_id == iid) = [] :=
    (filter_eq_nil_iff_find?_none _ _).mpr h
  unfold update_source_transaction
  rw [hfilter]
  simp

theorem update_source_some {st : Store} {iid : List Char} {r0 : IntentRow}
    (tx : List Char) (env : WebhookEnv) (h : findIntent st iid = some r0) :
    (update_source_transaction st iid tx env).1 = some (sourceTxUpdate tx r0) ∧
    statusOf (update_source_transaction st iid tx env).2 iid =
      some .submitted := by
  have hfind : st.payment_intents.find? (fun r => r.intent_id == iid) = some r0 := h
  have hup := find?_update_intents st.payment_intents iid (sourceTxUpdate tx)
    (fun r => rfl)
  have hfne : (st.payment_intents.filter (fun r => r.intent_id == iid)).map
      (sourceTxUpdate tx) ≠ [] := by
    intro hnil
    rw [List.map_eq_nil_iff] at hnil
    rw [filter_eq_nil_iff_find?_none] at hnil
    rw [hnil] at hfind
    exact Option.noConfusion hfind
  have hfind1 : findIntent { st with payment_intents := st.payment_intents.map (fun r =>
      if r.intent_id == iid then sourceTxUpdate tx r else r) } iid =
        some (sourceTxUpdate tx r0) := by
    unfold findIntent
    rw [show ({ st with payment_intents := st.payment_intents.map (fun r =>
        if r.intent_id == iid then sourceTxUpdate tx r else r) } : Store).payment_intents =
      st.payment_intents.map (fun r =>
        if r.intent_id == iid then sourceTxUpdate tx r else r) from rfl]
    rw [hup, hfind]
    rfl
  unfold update_source_transaction
  rw [if_neg hfne, hfind1]
  refine ⟨rfl, ?_⟩
  unfold statusOf findIntent
  rw [send_webhook_intents]
  rw [show ({ st with payment_intents := st.payment_intents.map (fun r =>
      if r.intent_id == iid then sourceTxUpdate tx r else r) } : Store).payment_intents =
    st.payment_intents.map (fun r =>
      if r.intent_id == iid then sourceTxUpdate tx r else r) from rfl]
  rw [hup, hfind]
  rfl

theorem update_destination_none {st : Store} {iid : List Char} (tx : List Char)
    (env : WebhookEnv) (h : findIntent st iid = none) :
    (update_destination_transaction st iid tx env).1 = none := by
  have hfilter : st.payment_intents.filter (fun r => r.intent_id == iid) = [] :=
    (filter_eq_nil_iff_find?_none _ _).mpr h
  unfold update_destination_transaction
  rw [hfilter]
  simp

theorem update_destination_some {st : Store} {iid : List Char} {r0 : IntentRow}
    (tx : List Char) (env : WebhookEnv) (h : findIntent st iid = some r0) :
    (update_destination_transaction st iid tx env).1 = some (destTxUpdate tx r0) ∧
    statusOf (update_destination_transaction st iid tx env).2 iid =
      some .settled := by
  have hfind : st.payment_intents.find? (fun r => r.intent_id == iid) = some r0 := h
  have hup := find?_update_intents st.payment_intents iid (destTxUpdate tx)
    (fun r => rfl)
  have hfne : (st.payment_intents.filter (fun r => r.intent_id == iid)).map
      (destTxUpdate tx) ≠ [] := by
    intro hnil
    rw [List.map_eq_nil_iff] at hnil
    rw [filter_eq_nil_iff_find?_none] at hnil
    rw [hnil] at hfind
    exact Option.noConfusion hfind
  have hfind1 : findIntent { st with payment_intents := st.payment_intents.map (fun r =>
      if r.intent_id == iid then destTxUpdate tx r else r) } iid =
        some (destTxUpdate tx r0) := by
    unfold findIntent
    rw [show ({ st with payment_intents := st.payment_intents.map (fun r =>
        if r.intent_id == iid then destTxUpdate tx r else r) } : Store).payment_intents =
      st.payment_intents.map (fun r =>
        if r.intent_id == iid then destTxUpdate tx r else r) from rfl]
    rw [hup, hfind]
    rfl
  unfold update_destination_transaction
  rw [if_neg hfne, hfind1]
  refine ⟨rfl, ?_⟩
  unfold statusOf findIntent
  rw [send_webhook_intents]
  rw [show ({ st with payment_intents := st.payment_intents.map (fun r =>
      if r.intent_id == iid then destTxUpdate tx r else r) } : Store).payment_intents =
    st.payment_intents.map (fun r =>
      if r.intent_id == iid then destTxUpdate tx r else r) from rfl]
  rw [hup, hfind]
  rfl

/-- C1 counterexample: a SETTLED intent moves back to SUBMITTED when
report-source-transaction is applied to it — the stored status is not left
unchanged on an illegal transition. -/
theorem C1_counterexample :
    statusOf storeC1 "pi_1".data = some .settled ∧
    statusOf (update_source_transaction storeC1 "pi_1".data txHashA wenvA).2
      "pi_1".data = some .submitted := by
  refine ⟨by decide, by decide⟩

/-- C1 (amended): both transition operations are conditional only on
`intent_id`, with no status guard: for every stored intent, whatever its
current status, report-source-transaction leaves the stored status SUBMITTED
and complete-transaction leaves it SETTLED (so a SETTLED intent does move
back to SUBMITTED; the status diagram is not enforced by the updates). -/
theorem C1_transitions_unconditional (st : Store) (iid tx : List Char)
    (env : WebhookEnv) (s : PaymentIntentStatus) (h : statusOf st iid = some s) :
    statusOf (update_source_transaction st iid tx env).2 iid = some .submitted ∧
    statusOf (update_destination_transaction st iid tx env).2 iid =
      some .settled := by
  rcases hfind : findIntent st iid with _ | r0
  · unfold statusOf at h
    rw [hfind] at h
    exact Option.noConfusion h
  · exact ⟨(update_source_some tx env hfind).2, (update_destination_some tx env hfind).2⟩

/-- Witness for C1 (amended), at the SETTLED intent. -/
theorem C1_transitions_unconditional_witness :
    statusOf (update_source_transaction storeC1 "pi_1".data txHashA wenvA).2
      "pi_1".data = some .submitted ∧
    statusOf (update_destination_transaction storeC1 "pi_1".data txHashA wenvA).2
      "pi_1".data = some .settled :=
  C1_transitions_unconditional storeC1 "pi_1".data txHashA wenvA .settled (by decide)

/-- C4 counterexample: report-source-transaction on an intent currently
SUBMITTED does not raise ConflictError — it succeeds (returns the row). -/
theorem C4_counterexample :
    statusOf storeC4 "pi_4".data = some .submitted ∧
    ((update_source_transaction storeC4 "pi_4".data txHashA wenvA).1).isSome =
      true := by
  refine ⟨by decide, by decide⟩

/-- C4 (amended): report-source-transaction succeeds for every existing
intent regardless of its current status, recording the hash and setting
status SUBMITTED; an unknown `intent_id` yields `None` (mapped to HTTP 404 by
the API layer); no ConflictError is raised anywhere on this path. -/
theorem C4_report_source_unconditional (st : Store) (iid tx : List Char)
    (env : WebhookEnv) :
    (findIntent st iid = none → (update_source_transaction st iid tx env).1 = none) ∧
    (∀ r0, findIntent st iid = some r0 →
      (update_source_transaction st iid tx env).1 =
        some { r0 with src_tx_hash := some tx, status := .submitted }) :=
  ⟨fun h => update_source_none tx env h,
   fun _ h => (update_source_some tx env h).1⟩

/-- Witness for C4 (amended): the not-found branch and the SUBMITTED-intent
branch, both concrete. -/
theorem C4_report_source_unconditional_witness :
    (update_source_transaction storeC4 "pi_unknown".data txHashA wenvA).1 = none ∧
    (update_source_transaction storeC4 "pi_4".data txHashA wenvA).1 =
      some { submittedRowC4 with src_tx_hash := some txHashA, status := .submitted } :=
  ⟨(C4_report_source_unconditional storeC4 "pi_unknown".data txHashA wenvA).1 (by decide),
   (C4_report_source_unconditional storeC4 "pi_4".data txHashA wenvA).2
     submittedRowC4 (by decide)⟩

/-- C5 counterexample: complete-transaction applied to an intent currently
SUBMITTED (neither CREATED nor FAILED) does not raise ConflictError — it
succeeds and stamps the intent SETTLED. -/
theorem C5_counterexample :
    statusOf storeC5 "pi_5".data = some .submitted ∧
    ((update_destination_transaction storeC5 "pi_5".data txHashA wenvA).1).map
      (·.status) = some .settled := by
  refine ⟨by decide, by decide⟩

/-- C5 (amended): the complete-transaction operation takes only a transaction
hash (no declared outcome — the status enum has no FAILED member at all), is
applied to every existing intent regardless of its current status, always
records the hash and sets status SETTLED, and yields `None` for an unknown
`intent_id`; no ValidationError or ConflictError exists on this path. -/
theorem C5_complete_unconditional (st : Store) (iid tx : List Char)
    (env : WebhookEnv) :
    (findIntent st iid = none →
      (update_destination_transaction st iid tx env).1 = none) ∧
    (∀ r0, findIntent st iid = some r0 →
      (update_destination_transaction st iid tx env).1 =
        some { r0 with dest_tx_hash := some tx, status := .settled } ∧
      statusOf (update_destination_transaction st iid tx env).2 iid =
        some .settled) ∧
    (∀ s : PaymentIntentStatus, s.value ≠ "failed".data) := by
  refine ⟨fun h => update_destination_none tx env h,
    fun r0 h => ⟨(update_destination_some tx env h).1,
      (update_destination_some tx env h).2⟩,
    fun s => by cases s <;> decide⟩

/-- Witness for C5 (amended): the not-found branch and the SUBMITTED-intent
branch, both concrete. -/
theorem C5_complete_unconditional_witness :
    (update_destination_transaction storeC5 "pi_unknown".data txHashA wenvA).1 = none ∧
    (update_destination_transaction storeC5 "pi_5".data txHashA wenvA).1 =
      some { submittedRowC5 with dest_tx_hash := some txHashA, status := .settled } :=
  ⟨(C5_complete_unconditional storeC5 "pi_unknown".data txHashA wenvA).1 (by decide),
   ((C5_complete_unconditional storeC5 "pi_5".data txHashA wenvA).2.1
     submittedRowC5 (by decide)).1⟩

/-- C9: creating an intent whose source chain is not in the registry fails
with the chain-combination ValidationError before any database access: the
store is returned unchanged, so no PaymentIntent row and no WebhookEvent is
created. -/
theorem C9_create_intent_unsupported_src (st : Store) (pd : PaymentIntentCreate)
    (env : CreateEnv) (h : pd.src_chain_id ∉ get_supported_chains) :
    create_payment_intent st pd env = (.error .unsupportedChainCombination, st) ∧
    (create_payment_intent st pd env).2.payment_intents = st.payment_intents ∧
    (create_payment_intent st pd env).2.webhook_events = st.webhook_events := by
  have hv : validate_chain_support pd.src_chain_id pd.dest_chain_id = false := by
    unfold validate_chain_support
    simp [h]
  have heq : create_payment_intent st pd env =
      (.error .unsupportedChainCombination, st) := by
    unfold create_payment_intent
    rw [hv]
    simp
  exact ⟨heq, by rw [heq], by rw [heq]⟩

/-- Witness for C9, at the scenario-B request. -/
theorem C9_create_intent_unsupported_src_witness :
    create_payment_intent storeC9 pdC9 cenvC9 =
      (.error .unsupportedChainCombination, storeC9) ∧
    (create_payment_intent storeC9 pdC9 cenvC9).2.payment_intents =
      storeC9.payment_intents ∧
    (create_payment_intent storeC9 pdC9 cenvC9).2.webhook_events =
      storeC9.webhook_events :=
  C9_create_intent_unsupported_src storeC9 pdC9 cenvC9 (by decide)

theorem find?_updateWebhookEvent {st : Store} {eid : Nat} {row : WebhookEventRow}
    (hrow : findWebhookEvent st.webhook_events eid = some row)
    (f : WebhookEventRow → WebhookEventRow) (hf : ∀ r, (f r).id = r.id) :
    findWebhookEvent (updateWebhookEvent st eid f).webhook_events eid =
      some (f row) := by
  unfold updateWebhookEvent findWebhookEvent
  rw [find?_update_webhooks st.webhook_events eid f hf]
  unfold findWebhookEvent at hrow
  rw [hrow]
  rfl

theorem failed_invocation_row (st : Store) (eid : Nat) (row : WebhookEventRow)
    (now : Nat) (o : DeliveryOutcome)
    (hrow : findWebhookEvent st.webhook_events eid = some row)
    (hfail : failingOutcome o) (hlt : row.attempts < row.max_attempts) :
    findWebhookEvent (deliveryInvocation st eid o now).webhook_events eid =
      some { row with
        attempts := row.attempts + 1,
        status := .failed,
        next_retry_at := now + min (webhook_retry_delay_seconds * 2 ^ row.attempts) 3600,
        response_status := some (outcomeRespStatus o),
        response_body := some (outcomeRespBody o) } := by
  cases o with
  | response code body =>
    simp only [failingOutcome] at hfail
    have hB : (decide (200 ≤ code) && decide (code < 300)) = false := by
      by_cases h1 : 200 ≤ code
      · by_cases h2 : code < 300
        · exact absurd ⟨h1, h2⟩ hfail
        · simp [h2]
      · simp [h1]
    unfold deliveryInvocation attempt_webhook_delivery
    rw [hrow]
    dsimp only
    rw [if_neg (Nat.not_le.mpr hlt)]
    dsimp only
    rw [hB, if_neg Bool.false_ne_true]
    have hf1 := find?_updateWebhookEvent hrow
      (fun r => { r with attempts := row.attempts + 1, response_status := some code, response_body := some (body.take 1000), status := if 200 ≤ code ∧ code < 300 then WebhookStatus.sent else WebhookStatus.failed })
      (fun _ => rfl)
    unfold schedule_retry
    rw [hf1]
    dsimp only
    refine (find?_updateWebhookEvent hf1
      (fun r => { r with next_retry_at := now + min (webhook_retry_delay_seconds * 2 ^ (row.attempts + 1 - 1)) 3600 })
      (fun _ => rfl)).trans ?_
    simp only [if_neg hfail, Nat.add_sub_cancel]
    rfl
  | transportError msg =>
    unfold deliveryInvocation attempt_webhook_delivery
    rw [hrow]
    dsimp only
    rw [if_neg (Nat.not_le.mpr hlt)]
    dsimp only
    rw [if_neg Bool.false_ne_true]
    have hf1 := find?_updateWebhookEvent hrow
      (fun r => { r with attempts := row.attempts + 1, response_status := some 0, response_body := some (("Delivery failed: ".data ++ msg).take 1000), status := WebhookStatus.failed })
      (fun _ => rfl)
    unfold schedule_retry
    rw [hf1]
    dsimp only
    refine (find?_updateWebhookEvent hf1
      (fun r => { r with next_retry_at := now + min (webhook_retry_delay_seconds * 2 ^ (row.attempts + 1 - 1)) 3600 })
      (fun _ => rfl)).trans ?_
    simp only [Nat.add_sub_cancel]
    rfl

theorem exhausted_invocation_row (st : Store) (eid : Nat) (row : WebhookEventRow)
    (now : Nat) (o : DeliveryOutcome)
    (hrow : findWebhookEvent st.webhook_events eid = some row)
    (hge : row.max_attempts ≤ row.attempts) :
    findWebhookEvent (deliveryInvocation st eid o now).webhook_events eid =
      some { row with
        status := .expired,
        next_retry_at := now + min (webhook_retry_delay_seconds * 2 ^ (row.attempts - 1)) 3600 } := by
  unfold deliveryInvocation attempt_webhook_delivery
  rw [hrow]
  dsimp only
  rw [if_pos hge]
  dsimp only
  rw [if_neg Bool.false_ne_true]
  have hf1 := find?_updateWebhookEvent hrow
    (fun r => { r with status := WebhookStatus.expired }) (fun _ => rfl)
  unfold schedule_retry
  rw [hf1]
  dsimp only
  exact find?_updateWebhookEvent hf1
    (fun r => { r with next_retry_at := now + min (webhook_retry_delay_seconds * 2 ^ (row.attempts - 1)) 3600 })
    (fun _ => rfl)

/-- C2 counterexample: the retries are indeed scheduled at +2s and +4s after
the first two failed attempts, but after the 3rd failed attempt the event's
status is FAILED — not EXPIRED — and `next_retry_at` IS advanced once more
(to +8s); expiry only happens at the start of a later invocation. -/
theorem C2_counterexample :
    (findWebhookEvent stC2_1.webhook_events 7).map (·.next_retry_at) = some 103 ∧
    (findWebhookEvent stC2_2.webhook_events 7).map (·.next_retry_at) = some 204 ∧
    (findWebhookEvent stC2_3.webhook_events 7).map (·.attempts) = some 3 ∧
    (findWebhookEvent stC2_3.webhook_events 7).map (·.status) = some .failed ∧
    (findWebhookEvent stC2_3.webhook_events 7).map (·.status) ≠ some .expired ∧
    (findWebhookEvent stC2_3.webhook_events 7).map (·.next_retry_at) = some 308 := by
  refine ⟨by decide, by decide, by decide, by decide, by decide, by decide⟩

/-- C2 (amended): each failed delivery invocation on an event with
`attempts < max_attempts` increments `attempts`, sets status FAILED, records
the response, and schedules the next retry at
`now + min(base_delay * 2^(attempts-1), 3600)` — +2s, +4s, +8s after
attempts 1, 2, 3 with base_delay 2s; the event is marked EXPIRED only at the
start of a later invocation that finds `attempts ≥ max_attempts`, and even
that invocation advances `next_retry_at` once more. -/
theorem C2_backoff_schedule (st : Store) (eid : Nat) (row : WebhookEventRow)
    (now : Nat) (o : DeliveryOutcome)
    (hrow : findWebhookEvent st.webhook_events eid = some row)
    (hfail : failingOutcome o) :
    (row.attempts < row.max_attempts →
      findWebhookEvent (deliveryInvocation st eid o now).webhook_events eid =
        some { row with
          attempts := row.attempts + 1,
          status := .failed,
          next_retry_at := now + min (webhook_retry_delay_seconds * 2 ^ row.attempts) 3600,
          response_status := some (outcomeRespStatus o),
          response_body := some (outcomeRespBody o) }) ∧
    (row.max_attempts ≤ row.attempts →
      findWebhookEvent (deliveryInvocation st eid o now).webhook_events eid =
        some { row with
          status := .expired,
          next_retry_at := now + min (webhook_retry_delay_seconds * 2 ^ (row.attempts - 1)) 3600 }) ∧
    webhook_retry_delay_seconds * 2 ^ 0 = 2 ∧
    webhook_retry_delay_seconds * 2 ^ 1 = 4 ∧
    webhook_retry_delay_seconds * 2 ^ 2 = 8 :=
  ⟨fun hlt => failed_invocation_row st eid row now o hrow hfail hlt,
   fun hge => exhausted_invocation_row st eid row now o hrow hge,
   by decide, by decide, by decide⟩

/-- Witness for C2 (amended): the fresh event (attempts 0 < 3) and the
exhausted event (attempts 3 ≥ 3), both with a transport failure. -/
theorem C2_backoff_schedule_witness :
    findWebhookEvent
        (deliveryInvocation storeEvC2 7 (.transportError "connection refused".data)
          101).webhook_events 7 =
      some { eventFreshC2 with
        attempts := 1,
        status := .failed,
        next_retry_at := 101 + min (webhook_retry_delay_seconds * 2 ^ eventFreshC2.attempts) 3600,
        response_status := some (outcomeRespStatus (.transportError "connection refused".data)),
        response_body := some (outcomeRespBody (.transportError "connection refused".data)) } ∧
    findWebhookEvent
        (deliveryInvocation storeEvC2x 8 (.transportError "connection refused".data)
          400).webhook_events 8 =
      some { eventSpentC2 with
        status := .expired,
        next_retry_at := 400 + min (webhook_retry_delay_seconds * 2 ^ (eventSpentC2.attempts - 1)) 3600 } :=
  ⟨(C2_backoff_schedule storeEvC2 7 eventFreshC2 101
      (.transportError "connection refused".data) (by decide) trivial).1 (by decide),
   (C2_backoff_schedule storeEvC2x 8 eventSpentC2 400
      (.transportError "connection refused".data) (by decide) trivial).2.1 (by decide)⟩

/-- C3 evaluation at the failing input: after one failed attempt the event is
FAILED (not PENDING) with attempts 1 < 3, and the poll sweep — which selects
only PENDING events — processes nothing and changes nothing, even at a much
later time and with an oracle that would deliver successfully; the sweep does
leave the SENT and EXPIRED events untouched. -/
theorem C3_sweep_never_retries :
    (findWebhookEvent stC3_1.webhook_events 9).map (·.status) = some .failed ∧
    (findWebhookEvent stC3_1.webhook_events 9).map (·.attempts) = some 1 ∧
    (stC3_1.webhook_events.filter (sweepSelects 1000000)) = [] ∧
    process_pending_webhooks stC3_1 1000000 (fun _ => .response 200 "ok".data) =
      (0, stC3_1) := by
  refine ⟨by decide, by decide, by decide, by decide⟩

/-- C10: `send_webhook` returns `True` on every non-raising execution —
vendor absent, no webhook URL, delivery success, and delivery failure with a
scheduled retry all alike — and the only raising executions are the vendor
lookup failing or the webhook-event insert returning no row. -/
theorem C10_send_webhook_true (st : Store) (vid et pl : List Char)
    (env : WebhookEnv) :
    (env.vendor_lookup_raises = false → env.insert_returns_row = true →
      (send_webhook st vid et pl env).1 = .ok true) ∧
    ((send_webhook st vid et pl env).1 = .ok true ∨
      (send_webhook st vid et pl env).1 = .error .dbUnavailable ∨
      (send_webhook st vid et pl env).1 = .error .createWebhookEventFailed) := by
  constructor
  · intro h1 h2
    unfold send_webhook
    rw [h1]
    rw [if_neg Bool.false_ne_true]
    split
    · rfl
    · split
      · rfl
      · split
        · rfl
        · split
          next hcontra =>
            rw [h2] at hcontra
            exact absurd hcontra (by decide)
          next => rfl
  · unfold send_webhook
    by_cases h1 : env.vendor_lookup_raises = true
    · rw [if_pos h1]
      exact Or.inr (Or.inl rfl)
    · rw [if_neg h1]
      split
      · exact Or.inl rfl
      · split
        · exact Or.inl rfl
        · split
          · exact Or.inl rfl
          · split
            · exact Or.inr (Or.inr rfl)
            · exact Or.inl rfl

/-- Witness for C10: the result is `True` both when the delivery attempt
fails (500) and when it succeeds (200). -/
theorem C10_send_webhook_true_witness :
    (send_webhook storeC10 "v_10".data "e".data "p".data wenvC10fail).1 = .ok true ∧
    (send_webhook storeC10 "v_10".data "e".data "p".data wenvC10ok).1 = .ok true :=
  ⟨(C10_send_webhook_true storeC10 "v_10".data "e".data "p".data wenvC10fail).1 rfl rfl,
   (C10_send_webhook_true storeC10 "v_10".data "e".data "p".data wenvC10ok).1 rfl rfl⟩

end CrossMeter
